import Mathlib

/-!
Verification of the obhavoAPI weather service (Go) against its specification.

The development shallowly embeds the weather-service layer of the repository:

* `internal/services/helpers.go` — the color-banding functions
  (`getTempColor`, `getWindColor`, `getCloudColor`), `formatWeatherData`, and
  the title-casing normalizer `capitalizeFirstLetter`
  (`cases.Title(language.Und)`, modelled for the ASCII fragment: the first
  letter of each maximal letter run is uppercased and the rest lowercased).
* `internal/services/weatherapi_service.go` — `FetchWeatherData`,
  `FetchBulkWeatherData`, `APIKeyAuthorization`,
  `UpdateWeatherDataInTheRedisCache` and the Redis cache helpers.  Redis is
  modelled as an association list of typed records (JSON serialization of a
  record round-trips, so the byte level is dropped); the upstream provider,
  the environment variables and the failure modes of Redis are modelled as an
  explicit environment.  `log.Fatalf` (process termination) is modelled as a
  distinguished `fatal` outcome that propagates to every caller.
* `api/handlers/weather_handler.go` — the two HTTP handlers, with the gin
  parameter extraction abstracted to `Option`-valued inputs.

Go `float64` fields are embedded as `ℚ` and `int` as `ℤ`.
-/

namespace Obhavo

/-! ### ASCII character case maps -/

/-- Uppercase an ASCII letter (identity on everything else). -/
def upChar (c : Char) : Char :=
  if h : 97 ≤ c.toNat ∧ c.toNat ≤ 122 then
    Char.ofNatAux (c.toNat - 32) (Or.inl (by omega))
  else c

/-- Lowercase an ASCII letter (identity on everything else). -/
def downChar (c : Char) : Char :=
  if h : 65 ≤ c.toNat ∧ c.toNat ≤ 90 then
    Char.ofNatAux (c.toNat + 32) (Or.inl (by omega))
  else c

/-- ASCII letter test (the word characters of the title caser model). -/
def isLetter (c : Char) : Bool :=
  decide ((65 ≤ c.toNat ∧ c.toNat ≤ 90) ∨ (97 ≤ c.toNat ∧ c.toNat ≤ 122))

/-- Title-case a character list: uppercase a letter that starts a letter run,
lowercase every other letter, leave non-letters unchanged.  The flag carries
whether the previous character was a letter. -/
def titleCaseChars : Bool → List Char → List Char
  | _, [] => []
  | inWord, c :: cs =>
    if isLetter c then
      (if inWord then downChar c else upChar c) :: titleCaseChars true cs
    else
      c :: titleCaseChars false cs

/-- `capitalizeFirstLetter` from `internal/services/helpers.go`:
`cases.Title(language.Und).String(s)`, modelled on the ASCII fragment. -/
def capitalizeFirstLetter (s : String) : String :=
  String.mk (titleCaseChars false s.data)

/-- `strings.Replace(q, " ", "%20", -1)` on the character list. -/
def escChars : List Char → List Char
  | [] => []
  | c :: cs => if c = ' ' then '%' :: '2' :: '0' :: escChars cs else c :: escChars cs

/-- `strings.Replace(q, " ", "%20", -1)` from `FetchWeatherData`. -/
def replaceSpaces (s : String) : String :=
  String.mk (escChars s.data)

/-! ### Data model (`internal/services/model.go`) -/

/-- `Location` — the essential location details. -/
structure Location where
  name : String
  country : String
  lat : ℚ
  lon : ℚ
deriving DecidableEq, Repr

/-- `Current` — the essential weather details. -/
structure Current where
  tempC : ℚ
  windKph : ℚ
  cloud : ℤ
deriving DecidableEq, Repr

/-- `Weather` — location plus current weather, as parsed from the provider. -/
structure Weather where
  location : Location
  current : Current
deriving DecidableEq, Repr

/-- `FormattedWeatherData` — the display-ready record. -/
structure FormattedWeatherData where
  name : String
  country : String
  lat : ℚ
  lon : ℚ
  tempC : ℚ
  tempColor : String
  windKph : ℚ
  windColor : String
  cloud : ℤ
  cloudColor : String
deriving DecidableEq, Repr

/-! ### Color banding (`internal/services/helpers.go`) -/

/-- `getTempColor` from `internal/services/helpers.go`. -/
def getTempColor (tempC : ℚ) : String :=
  if tempC < -20 then "#003366"
  else if tempC ≥ -20 ∧ tempC < -10 then "#4A90E2"
  else if tempC ≥ -10 ∧ tempC < 0 then "#B3DFFD"
  else if tempC ≥ 0 ∧ tempC < 10 then "#E6F7FF"
  else if tempC ≥ 10 ∧ tempC < 20 then "#D1F2D3"
  else if tempC ≥ 20 ∧ tempC < 30 then "#FFFACD"
  else if tempC ≥ 30 ∧ tempC < 40 then "#FFCC80"
  else if tempC ≥ 40 ∧ tempC < 50 then "#FF7043"
  else if tempC ≥ 50 then "#D32F2F"
  else "#FFFFFF"

/-- `getWindColor` from `internal/services/helpers.go`. -/
def getWindColor (windKph : ℚ) : String :=
  if windKph ≥ 0 ∧ windKph < 10 then "#E0F7FA"
  else if windKph ≥ 10 ∧ windKph < 20 then "#B2EBF2"
  else if windKph ≥ 20 ∧ windKph < 40 then "#4DD0E1"
  else if windKph ≥ 40 ∧ windKph < 60 then "#0288D1"
  else if windKph ≥ 60 then "#01579B"
  else "#FFFFFF"

/-- `getCloudColor` from `internal/services/helpers.go`. -/
def getCloudColor (cloud : ℤ) : String :=
  if cloud ≥ 0 ∧ cloud < 10 then "#FFF9C4"
  else if cloud ≥ 10 ∧ cloud < 30 then "#FFF176"
  else if cloud ≥ 30 ∧ cloud < 60 then "#E0E0E0"
  else if cloud ≥ 60 ∧ cloud < 90 then "#9E9E9E"
  else if cloud ≥ 90 ∧ cloud ≤ 100 then "#616161"
  else "#FFFFFF"

/-- The nine temperature band colors, in band order. -/
def tempColor9 : Fin 9 → String
  | 0 => "#003366"
  | 1 => "#4A90E2"
  | 2 => "#B3DFFD"
  | 3 => "#E6F7FF"
  | 4 => "#D1F2D3"
  | 5 => "#FFFACD"
  | 6 => "#FFCC80"
  | 7 => "#FF7043"
  | 8 => "#D32F2F"

/-- Membership in the i-th temperature band of the spec's band table. -/
def tempBand (i : Fin 9) (t : ℚ) : Prop :=
  match i with
  | 0 => t < -20
  | 1 => -20 ≤ t ∧ t < -10
  | 2 => -10 ≤ t ∧ t < 0
  | 3 => 0 ≤ t ∧ t < 10
  | 4 => 10 ≤ t ∧ t < 20
  | 5 => 20 ≤ t ∧ t < 30
  | 6 => 30 ≤ t ∧ t < 40
  | 7 => 40 ≤ t ∧ t < 50
  | 8 => 50 ≤ t

/-- The five wind band colors, in band order. -/
def windColor5 : Fin 5 → String
  | 0 => "#E0F7FA"
  | 1 => "#B2EBF2"
  | 2 => "#4DD0E1"
  | 3 => "#0288D1"
  | 4 => "#01579B"

/-- Membership in the i-th wind band of the spec's band table. -/
def windBand (i : Fin 5) (w : ℚ) : Prop :=
  match i with
  | 0 => 0 ≤ w ∧ w < 10
  | 1 => 10 ≤ w ∧ w < 20
  | 2 => 20 ≤ w ∧ w < 40
  | 3 => 40 ≤ w ∧ w < 60
  | 4 => 60 ≤ w

/-- The five cloud band colors, in band order. -/
def cloudColor5 : Fin 5 → String
  | 0 => "#FFF9C4"
  | 1 => "#FFF176"
  | 2 => "#E0E0E0"
  | 3 => "#9E9E9E"
  | 4 => "#616161"

/-- Membership in the i-th cloud band of the spec's band table. -/
def cloudBand (i : Fin 5) (c : ℤ) : Prop :=
  match i with
  | 0 => 0 ≤ c ∧ c < 10
  | 1 => 10 ≤ c ∧ c < 30
  | 2 => 30 ≤ c ∧ c < 60
  | 3 => 60 ≤ c ∧ c < 90
  | 4 => 90 ≤ c ∧ c ≤ 100

/-- `formatWeatherData` from `internal/services/helpers.go`. -/
def formatWeatherData (weatherData : Weather) : FormattedWeatherData :=
  { name := weatherData.location.name
    country := weatherData.location.country
    lat := weatherData.location.lat
    lon := weatherData.location.lon
    tempC := weatherData.current.tempC
    tempColor := getTempColor weatherData.current.tempC
    windKph := weatherData.current.windKph
    windColor := getWindColor weatherData.current.windKph
    cloud := weatherData.current.cloud
    cloudColor := getCloudColor weatherData.current.cloud }

/-! ### Service-layer model (`internal/services/weatherapi_service.go`) -/

/-- The domain errors of the service layer (`internal/services/errors.go`
plus the wrapped error cases of `weatherapi_service.go`). -/
inductive SvcError where
  /-- `ErrNoLocationFound` (provider answered HTTP 400). -/
  | noLocationFound
  /-- `ErrNoDataCache` (redis.Nil on the cache read). -/
  | noDataCache
  /-- `ErrUnexpectedEndOfJSONInput` (a `json.SyntaxError` while unmarshaling). -/
  | unexpectedEndOfJSONInput
  /-- the wrapped generic unmarshal error of `FetchWeatherData`. -/
  | unmarshalJSON
  /-- `LoadEnvironmentVariable("API_KEY_FOR_WEATHERAPI")` failed. -/
  | envVar
  /-- provider answered a status other than 200 and 400. -/
  | badStatus
  /-- a non-Nil Redis failure on the cache read. -/
  | redisGet
  /-- Redis `FlushDB` failed. -/
  | redisFlush
  /-- `ErrAPIKeyNotFound`. -/
  | apiKeyNotFound
  /-- the wrapped database error of `APIKeyAuthorization`. -/
  | dbCheck
deriving DecidableEq, Repr

/-- The outcome of one provider round trip for a given URL, covering
`requestToWeatherApi` plus the subsequent `json.Unmarshal`: HTTP 400, another
bad status, a 200 body that fails to parse with a `json.SyntaxError`, a 200
body that fails to parse with any other unmarshal error, or a parsed body. -/
inductive ProviderOutcome where
  | badRequest
  | badStatus
  | bodyTruncated
  | bodyMismatched
  | ok (w : Weather)
deriving DecidableEq, Repr

/-- `CheckUserAPIKey` outcome (`internal/models/weatherapi_model.go`):
the key exists, the key is absent (`ErrAPIKeyNotFound`), or the query fails. -/
inductive AuthResult where
  | valid
  | keyNotFound
  | dbFailure
deriving DecidableEq, Repr

/-- The external world of the service: environment variables, the upstream
provider keyed by request URL, the failure switches of Redis, and the
API-key table. -/
structure Env where
  apiKeyEnv : Option String
  provider : String → ProviderOutcome
  cacheGetFails : Bool
  cacheSetFails : Bool
  flushFails : Bool
  db : String → AuthResult

/-- The Redis cache, as an association list from keys to cached records
(later writes shadow earlier ones, like `SET`).  Only entries inside their
30-minute TTL window are represented. -/
abbrev Cache : Type := List (String × FormattedWeatherData)

/-- Cache read (`GET`). -/
def cacheGet : Cache → String → Option FormattedWeatherData
  | [], _ => none
  | (k, v) :: rest, key => if key = k then some v else cacheGet rest key

/-- Cache write (`SET` with the 30-minute TTL). -/
def cacheSet (c : Cache) (k : String) (v : FormattedWeatherData) : Cache :=
  (k, v) :: c

/-- One observable Redis operation, for auditing which calls a request makes. -/
inductive CacheOp where
  | get (key : String)
  | set (key : String)
  | flush
deriving DecidableEq, Repr

/-- The result of `FetchWeatherData`: a record, a returned error, or process
termination by `log.Fatalf`. -/
inductive FetchResult where
  | ok (d : FormattedWeatherData)
  | err (e : SvcError)
  | fatal
deriving DecidableEq, Repr

/-- Result, final cache, provider requests made (by URL, in order) and Redis
operations made (in order) of one `FetchWeatherData` call. -/
structure FetchOut where
  result : FetchResult
  cache : Cache
  providerCalls : List String
  cacheOps : List CacheOp
deriving DecidableEq, Repr

/-- The weatherapi.com URL built by `FetchWeatherData`. -/
def urlFor (apiKey query : String) : String :=
  "http://api.weatherapi.com/v1/current.json?key=" ++ apiKey ++ "&q=" ++ query ++ "&aqi=no"

/-- `FetchWeatherData` from `internal/services/weatherapi_service.go`:
title-case the query, try the cache (the cache helper title-cases again),
and on `ErrNoDataCache` load the API key, escape spaces in the (title-cased)
query, call the provider, parse, format, and cache under the escaped query;
a cache-write failure hits `log.Fatalf`. -/
def fetchWeatherData (env : Env) (cache : Cache) (q0 : String) : FetchOut :=
  if env.cacheGetFails then
    ⟨.err .redisGet, cache, [],
      [.get (capitalizeFirstLetter (capitalizeFirstLetter q0))]⟩
  else
    match cacheGet cache (capitalizeFirstLetter (capitalizeFirstLetter q0)) with
    | some d =>
      ⟨.ok d, cache, [], [.get (capitalizeFirstLetter (capitalizeFirstLetter q0))]⟩
    | none =>
      match env.apiKeyEnv with
      | none =>
        ⟨.err .envVar, cache, [],
          [.get (capitalizeFirstLetter (capitalizeFirstLetter q0))]⟩
      | some apiKey =>
        match env.provider (urlFor apiKey (replaceSpaces (capitalizeFirstLetter q0))) with
        | .badRequest =>
          ⟨.err .noLocationFound, cache,
            [urlFor apiKey (replaceSpaces (capitalizeFirstLetter q0))],
            [.get (capitalizeFirstLetter (capitalizeFirstLetter q0))]⟩
        | .badStatus =>
          ⟨.err .badStatus, cache,
            [urlFor apiKey (replaceSpaces (capitalizeFirstLetter q0))],
            [.get (capitalizeFirstLetter (capitalizeFirstLetter q0))]⟩
        | .bodyTruncated =>
          ⟨.err .unexpectedEndOfJSONInput, cache,
            [urlFor apiKey (replaceSpaces (capitalizeFirstLetter q0))],
            [.get (capitalizeFirstLetter (capitalizeFirstLetter q0))]⟩
        | .bodyMismatched =>
          ⟨.err .unmarshalJSON, cache,
            [urlFor apiKey (replaceSpaces (capitalizeFirstLetter q0))],
            [.get (capitalizeFirstLetter (capitalizeFirstLetter q0))]⟩
        | .ok w =>
          if env.cacheSetFails then
            ⟨.fatal, cache,
              [urlFor apiKey (replaceSpaces (capitalizeFirstLetter q0))],
              [.get (capitalizeFirstLetter (capitalizeFirstLetter q0)),
               .set (replaceSpaces (capitalizeFirstLetter q0))]⟩
          else
            ⟨.ok (formatWeatherData w),
              cacheSet cache (replaceSpaces (capitalizeFirstLetter q0)) (formatWeatherData w),
              [urlFor apiKey (replaceSpaces (capitalizeFirstLetter q0))],
              [.get (capitalizeFirstLetter (capitalizeFirstLetter q0)),
               .set (replaceSpaces (capitalizeFirstLetter q0))]⟩

/-- The not-found marker `fmt.Sprintf("'%s' not found", q)` of
`FetchBulkWeatherData`. -/
def notFoundMsg (q : String) : String :=
  "\x27" ++ q ++ "\x27 not found"

/-- Result of `FetchBulkWeatherData`: the two returned slices, the returned
error if any, whether `log.Fatalf` fired inside, the final cache, and the
provider/Redis traffic. -/
structure BulkOut where
  found : List FormattedWeatherData
  notFoundList : List String
  error : Option SvcError
  fatal : Bool
  cache : Cache
  providerCalls : List String
  cacheOps : List CacheOp
deriving DecidableEq, Repr

/-- `FetchBulkWeatherData`: fetch each query in order; `ErrNoLocationFound`
adds `'<q>' not found` and continues, any other error returns
`(nil, nil, err)` at once. -/
def fetchBulkWeatherData (env : Env) (cache : Cache) : List String → BulkOut
  | [] => ⟨[], [], none, false, cache, [], []⟩
  | q :: qs =>
    match (fetchWeatherData env cache q).result with
    | .fatal =>
      ⟨[], [], none, true, (fetchWeatherData env cache q).cache,
        (fetchWeatherData env cache q).providerCalls,
        (fetchWeatherData env cache q).cacheOps⟩
    | .err e =>
      if e = .noLocationFound then
        match fetchBulkWeatherData env (fetchWeatherData env cache q).cache qs with
        | ⟨found, notFoundList, error, fatal, cache2, calls2, ops2⟩ =>
          if fatal then
            ⟨[], [], none, true, cache2,
              (fetchWeatherData env cache q).providerCalls ++ calls2,
              (fetchWeatherData env cache q).cacheOps ++ ops2⟩
          else if error.isSome then
            ⟨[], [], error, false, cache2,
              (fetchWeatherData env cache q).providerCalls ++ calls2,
              (fetchWeatherData env cache q).cacheOps ++ ops2⟩
          else
            ⟨found, notFoundMsg q :: notFoundList, none, false, cache2,
              (fetchWeatherData env cache q).providerCalls ++ calls2,
              (fetchWeatherData env cache q).cacheOps ++ ops2⟩
      else
        ⟨[], [], some e, false, (fetchWeatherData env cache q).cache,
          (fetchWeatherData env cache q).providerCalls,
          (fetchWeatherData env cache q).cacheOps⟩
    | .ok d =>
      match fetchBulkWeatherData env (fetchWeatherData env cache q).cache qs with
      | ⟨found, notFoundList, error, fatal, cache2, calls2, ops2⟩ =>
        if fatal then
          ⟨[], [], none, true, cache2,
            (fetchWeatherData env cache q).providerCalls ++ calls2,
            (fetchWeatherData env cache q).cacheOps ++ ops2⟩
        else if error.isSome then
          ⟨[], [], error, false, cache2,
            (fetchWeatherData env cache q).providerCalls ++ calls2,
            (fetchWeatherData env cache q).cacheOps ++ ops2⟩
        else
          ⟨d :: found, notFoundList, none, false, cache2,
            (fetchWeatherData env cache q).providerCalls ++ calls2,
            (fetchWeatherData env cache q).cacheOps ++ ops2⟩

/-- `APIKeyAuthorization`: query the API-key table; map `ErrAPIKeyNotFound`
through, wrap any other database failure. -/
def apiKeyAuthorization (env : Env) (apiKey : String) : Bool × Option SvcError :=
  match env.db apiKey with
  | .valid => (true, none)
  | .keyNotFound => (false, some .apiKeyNotFound)
  | .dbFailure => (false, some .dbCheck)

/-- Observable outcome of one HTTP handler run: response status, final cache,
and the provider/Redis traffic of the request.  Status 0 marks a request on
which the process died (`log.Fatalf`) before responding. -/
structure HandlerOut where
  status : Nat
  cache : Cache
  providerCalls : List String
  cacheOps : List CacheOp
deriving DecidableEq, Repr

/-- `WeatherHandler.WeatherData` (`api/handlers/weather_handler.go`): extract
`key` and `q` (modelled as an optional pair), authorize, then fetch. -/
def weatherDataHandler (env : Env) (cache : Cache)
    (params : Option (String × String)) : HandlerOut :=
  match params with
  | none => ⟨400, cache, [], []⟩
  | some (apiKey, query) =>
    match (apiKeyAuthorization env apiKey).2 with
    | some e => if e = .apiKeyNotFound then ⟨401, cache, [], []⟩ else ⟨500, cache, [], []⟩
    | none =>
      match (fetchWeatherData env cache query).result with
      | .ok _ =>
        ⟨200, (fetchWeatherData env cache query).cache,
          (fetchWeatherData env cache query).providerCalls,
          (fetchWeatherData env cache query).cacheOps⟩
      | .err e =>
        ⟨if e = .noLocationFound then 404 else 500,
          (fetchWeatherData env cache query).cache,
          (fetchWeatherData env cache query).providerCalls,
          (fetchWeatherData env cache query).cacheOps⟩
      | .fatal =>
        ⟨0, (fetchWeatherData env cache query).cache,
          (fetchWeatherData env cache query).providerCalls,
          (fetchWeatherData env cache query).cacheOps⟩

/-- `WeatherHandler.BulkWeatherData`: extract `key`, authorize, only then bind
and filter the JSON body (modelled as an optional query list), then bulk
fetch. -/
def bulkWeatherDataHandler (env : Env) (cache : Cache)
    (apiKeyParam : Option String) (body : Option (List String)) : HandlerOut :=
  match apiKeyParam with
  | none => ⟨400, cache, [], []⟩
  | some apiKey =>
    match (apiKeyAuthorization env apiKey).2 with
    | some e => if e = .apiKeyNotFound then ⟨401, cache, [], []⟩ else ⟨500, cache, [], []⟩
    | none =>
      match body with
      | none => ⟨400, cache, [], []⟩
      | some qValues =>
        match fetchBulkWeatherData env cache qValues with
        | ⟨_, _, error, fatal, cache2, calls2, ops2⟩ =>
          if fatal then ⟨0, cache2, calls2, ops2⟩
          else if error.isSome then ⟨500, cache2, calls2, ops2⟩
          else ⟨200, cache2, calls2, ops2⟩

/-! ### Cache refresh (`UpdateWeatherDataInTheRedisCache`) -/

/-- The hard-coded roster of locations refreshed by
`UpdateWeatherDataInTheRedisCache`. -/
def country_list : List String := [
  "Afghanistan", "Albania", "Algeria", "Andorra", "Angola", "Anguilla",
  "Antigua &amp; Barbuda", "Argentina", "Armenia", "Aruba", "Australia", "Austria",
  "Azerbaijan", "Bahamas", "Bahrain", "Bangladesh", "Barbados", "Belarus", "Belgium",
  "Belize", "Benin", "Bermuda", "Bhutan", "Bolivia", "Bosnia &amp; Herzegovina", "Botswana",
  "Brazil", "British Virgin Islands", "Brunei", "Bulgaria", "Burkina Faso", "Burundi",
  "Cambodia", "Cameroon", "Cape Verde", "Cayman Islands", "Chad", "Chile", "China",
  "Colombia", "Congo", "Cook Islands", "Costa Rica", "Cote D Ivoire", "Croatia",
  "Cruise Ship", "Cuba", "Cyprus", "Czech Republic", "Denmark", "Djibouti", "Dominica",
  "Dominican Republic", "Ecuador", "Egypt", "El Salvador", "Equatorial Guinea", "Estonia",
  "Ethiopia", "Falkland Islands", "Faroe Islands", "Fiji", "Finland", "France",
  "French Polynesia", "French West Indies", "Gabon", "Gambia", "Georgia", "Germany", "Ghana",
  "Gibraltar", "Greece", "Greenland", "Grenada", "Guam", "Guatemala", "Guernsey", "Guinea",
  "Guinea Bissau", "Guyana", "Haiti", "Honduras", "Hong Kong", "Hungary", "Iceland", "India",
  "Indonesia", "Iran", "Iraq", "Ireland", "Isle of Man", "Israel", "Italy", "Jamaica",
  "Japan", "Jersey", "Jordan", "Kazakhstan", "Kenya", "Kuwait", "Kyrgyz Republic", "Laos",
  "Latvia", "Lebanon", "Lesotho", "Liberia", "Libya", "Liechtenstein", "Lithuania",
  "Luxembourg", "Macau", "Macedonia", "Madagascar", "Malawi", "Malaysia", "Maldives", "Mali",
  "Malta", "Mauritania", "Mauritius", "Mexico", "Moldova", "Monaco", "Mongolia", "Montenegro",
  "Montserrat", "Morocco", "Mozambique", "Namibia", "Nepal", "Netherlands",
  "Netherlands Antilles", "New Caledonia", "New Zealand", "Nicaragua", "Niger", "Nigeria",
  "Norway", "Oman", "Pakistan", "Palestine", "Panama", "Papua New Guinea", "Paraguay", "Peru",
  "Philippines", "Poland", "Portugal", "Puerto Rico", "Qatar", "Reunion", "Romania", "Russia",
  "Rwanda", "Saint Pierre &amp; Miquelon", "Samoa", "San Marino", "Satellite", "Saudi Arabia",
  "Senegal", "Serbia", "Seychelles", "Sierra Leone", "Singapore", "Slovakia", "Slovenia",
  "South Africa", "South Korea", "Spain", "Sri Lanka", "St Kitts &amp; Nevis", "St Lucia",
  "St Vincent", "St. Lucia", "Sudan", "Suriname", "Swaziland", "Sweden", "Switzerland",
  "Syria", "Taiwan", "Tajikistan", "Tanzania", "Thailand", "Timor L\x27Este", "Togo", "Tonga",
  "Trinidad &amp; Tobago", "Tunisia", "Turkey", "Turkmenistan", "Turks &amp; Caicos",
  "Uganda", "Ukraine", "United Arab Emirates", "United Kingdom", "Uruguay", "Uzbekistan",
  "Venezuela", "Vietnam", "Virgin Islands (US)", "Yemen", "Zambia", "Zimbabwe"]

/-- The cache key read by `FetchWeatherData` for an input query (the cache
helper title-cases the already title-cased query once more). -/
def rkey (l : String) : String :=
  capitalizeFirstLetter (capitalizeFirstLetter l)

/-- The cache key written by `FetchWeatherData` for an input query: the
title-cased query with spaces escaped. -/
def wkey (l : String) : String :=
  replaceSpaces (capitalizeFirstLetter l)

/-- No conflict between the (read key, write key) pairs of an earlier entry
`p` and a later entry `q` of a roster: distinct write keys, and the later
read key differs from the earlier write key. -/
def noConflictK (p q : String × String) : Bool :=
  decide (p.2 ≠ q.2) && decide (q.1 ≠ p.2)

/-- Pairwise `noConflictK` along a list of (read key, write key) pairs. -/
def freshCheckAux : List (String × String) → Bool
  | [] => true
  | p :: rest => rest.all (noConflictK p) && freshCheckAux rest

/-- A roster is fresh when no entry's read key can hit an earlier entry's
write key and no two entries share a write key. -/
def freshCheck (ls : List String) : Bool :=
  freshCheckAux (ls.map (fun l => (rkey l, wkey l)))

/-- Result of one refresh pass: whether `log.Fatalf` fired, the final cache,
and the provider/Redis traffic. -/
structure LoopOut where
  fatal : Bool
  cache : Cache
  providerCalls : List String
  cacheOps : List CacheOp
deriving DecidableEq, Repr

/-- The per-location loop of `UpdateWeatherDataInTheRedisCache`: fetch each
location, log and skip any error, stop only if the process dies. -/
def refreshLoop (env : Env) : Cache → List String → LoopOut
  | cache, [] => ⟨false, cache, [], []⟩
  | cache, l :: ls =>
    match (fetchWeatherData env cache l).result with
    | .fatal =>
      ⟨true, (fetchWeatherData env cache l).cache,
        (fetchWeatherData env cache l).providerCalls,
        (fetchWeatherData env cache l).cacheOps⟩
    | _ =>
      match refreshLoop env (fetchWeatherData env cache l).cache ls with
      | ⟨fatal, cache2, calls2, ops2⟩ =>
        ⟨fatal, cache2,
          (fetchWeatherData env cache l).providerCalls ++ calls2,
          (fetchWeatherData env cache l).cacheOps ++ ops2⟩

/-- Result of `UpdateWeatherDataInTheRedisCache`: the returned error if any,
whether the process died, the final cache and the traffic. -/
structure RefreshOut where
  error : Option SvcError
  fatal : Bool
  cache : Cache
  providerCalls : List String
  cacheOps : List CacheOp
deriving DecidableEq, Repr

/-- `UpdateWeatherDataInTheRedisCache` (`RefreshCache`): flush the whole
Redis database, then fetch every roster location in order, logging and
skipping per-location failures. -/
def updateWeatherDataInTheRedisCache (env : Env) (cache : Cache) : RefreshOut :=
  if env.flushFails then ⟨some .redisFlush, false, cache, [], [.flush]⟩
  else
    match refreshLoop env [] country_list with
    | ⟨fatal, cache2, calls2, ops2⟩ =>
      ⟨none, fatal, cache2, calls2, .flush :: ops2⟩

/-! ### Concrete fixtures for witnesses and counterexamples -/

/-- A sample parsed provider payload. -/
def w0 : Weather :=
  ⟨⟨"London", "United Kingdom", 51, 0⟩, ⟨15, 10, 40⟩⟩

/-- A benign environment: API key present, provider always answers `w0`,
Redis healthy, every client API key valid. -/
def env1 : Env :=
  ⟨some "k", fun _ => .ok w0, false, false, false, fun _ => .valid⟩

/-- `env1` with a failing Redis `SET`. -/
def env2 : Env :=
  ⟨some "k", fun _ => .ok w0, false, true, false, fun _ => .valid⟩

/-- `env1` with a provider that knows only London: any other URL gets
HTTP 400. -/
def env3 : Env :=
  ⟨some "k",
    fun u => if u = urlFor "k" "London" then .ok w0 else .badRequest,
    false, false, false, fun _ => .valid⟩

/-- `env1` with a provider that always answers a non-200, non-400 status. -/
def env4 : Env :=
  ⟨some "k", fun _ => .badStatus, false, false, false, fun _ => .valid⟩

/-- `env1` with an API-key table that knows no key. -/
def env5 : Env :=
  ⟨some "k", fun _ => .ok w0, false, false, false, fun _ => .keyNotFound⟩

/-- `env1` with a provider that always answers a 200 whose body is truncated
JSON (`json.SyntaxError`). -/
def env6 : Env :=
  ⟨some "k", fun _ => .bodyTruncated, false, false, false, fun _ => .valid⟩

/-- `env1` with a provider that always answers a 200 whose body does not
match the `Weather` shape (generic unmarshal error). -/
def env7 : Env :=
  ⟨some "k", fun _ => .bodyMismatched, false, false, false, fun _ => .valid⟩

/-! ### Character and string lemmas -/

theorem toNat_ofNatAux (n : Nat) (h : n.isValidChar) :
    (Char.ofNatAux n h).toNat = n := rfl

theorem upChar_toNat (c : Char) :
    (upChar c).toNat = if 97 ≤ c.toNat ∧ c.toNat ≤ 122 then c.toNat - 32 else c.toNat := by
  unfold upChar
  split <;> simp_all [toNat_ofNatAux]

theorem downChar_toNat (c : Char) :
    (downChar c).toNat = if 65 ≤ c.toNat ∧ c.toNat ≤ 90 then c.toNat + 32 else c.toNat := by
  unfold downChar
  split <;> simp_all [toNat_ofNatAux]

theorem upChar_upChar (c : Char) : upChar (upChar c) = upChar c := by
  unfold upChar
  split
  · have h1 : (Char.ofNatAux (c.toNat - 32) (Or.inl (by omega))).toNat = c.toNat - 32 :=
      toNat_ofNatAux _ _
    split
    · omega
    · rfl
  · rfl

theorem downChar_downChar (c : Char) : downChar (downChar c) = downChar c := by
  unfold downChar
  split
  · have h1 : (Char.ofNatAux (c.toNat + 32) (Or.inl (by omega))).toNat = c.toNat + 32 :=
      toNat_ofNatAux _ _
    split
    · omega
    · rfl
  · rfl

theorem char_eq_of_toNat_eq {a b : Char} (h : a.toNat = b.toNat) : a = b :=
  Char.ext (UInt32.toNat.inj h)

theorem downChar_upChar (c : Char) : downChar (upChar c) = downChar c := by
  apply char_eq_of_toNat_eq
  rw [downChar_toNat, downChar_toNat, upChar_toNat]
  split_ifs <;> omega

theorem upChar_downChar (c : Char) : upChar (downChar c) = upChar c := by
  apply char_eq_of_toNat_eq
  rw [upChar_toNat, upChar_toNat, downChar_toNat]
  split_ifs <;> omega

theorem isLetter_upChar (c : Char) : isLetter (upChar c) = isLetter c := by
  simp only [isLetter, upChar_toNat]
  split
  · rw [decide_eq_decide]; omega
  · rfl

theorem isLetter_downChar (c : Char) : isLetter (downChar c) = isLetter c := by
  simp only [isLetter, downChar_toNat]
  split
  · rw [decide_eq_decide]; omega
  · rfl

theorem titleCaseChars_idem (cs : List Char) :
    ∀ b, titleCaseChars b (titleCaseChars b cs) = titleCaseChars b cs := by
  induction cs with
  | nil => intro b; rfl
  | cons c cs ih =>
    intro b
    by_cases hc : isLetter c = true
    · cases b with
      | false =>
        simp only [titleCaseChars, hc, if_true, if_false, Bool.false_eq_true,
          isLetter_upChar, upChar_upChar, ih true]
      | true =>
        simp only [titleCaseChars, hc, if_true, isLetter_downChar,
          downChar_downChar, ih true]
    · rw [Bool.not_eq_true] at hc
      simp only [titleCaseChars, hc, Bool.false_eq_true, if_false, ih]

theorem data_mk (cs : List Char) : (String.mk cs).data = cs := rfl

theorem capitalizeFirstLetter_idem (s : String) :
    capitalizeFirstLetter (capitalizeFirstLetter s) = capitalizeFirstLetter s := by
  unfold capitalizeFirstLetter
  rw [data_mk, titleCaseChars_idem]

theorem not_mem_titleCaseChars (c0 : Char) (hc0 : isLetter c0 = false) (cs : List Char) :
    ∀ b, c0 ∉ cs → c0 ∉ titleCaseChars b cs := by
  induction cs with
  | nil => intro b _; simp [titleCaseChars]
  | cons c cs ih =>
    intro b hmem
    have hne : c0 ≠ c := fun h => hmem (h ▸ List.mem_cons_self c0 cs)
    have hrest : c0 ∉ cs := fun h => hmem (List.mem_cons_of_mem _ h)
    by_cases hc : isLetter c = true
    · simp only [titleCaseChars, hc, if_true]
      intro hin
      rcases List.mem_cons.mp hin with h | h
      · cases b with
        | false =>
          simp only [Bool.false_eq_true, if_false] at h
          rw [h, isLetter_upChar, hc] at hc0
          exact absurd hc0 (by decide)
        | true =>
          simp only [if_true] at h
          rw [h, isLetter_downChar, hc] at hc0
          exact absurd hc0 (by decide)
      · exact ih true hrest h
    · simp only [titleCaseChars, hc, Bool.false_eq_true, if_false]
      intro hin
      rcases List.mem_cons.mp hin with h | h
      · exact hne h
      · exact ih false hrest h

theorem escChars_of_no_space (cs : List Char) (h : ' ' ∉ cs) : escChars cs = cs := by
  induction cs with
  | nil => rfl
  | cons c cs ih =>
    have hne : c ≠ ' ' := fun hc => h (hc ▸ List.mem_cons_self c cs)
    have hrest : ' ' ∉ cs := fun hc => h (List.mem_cons_of_mem _ hc)
    simp only [escChars, if_neg (fun hc => hne hc), ih hrest]

theorem replaceSpaces_of_no_space (s : String) (h : ' ' ∉ s.data) :
    replaceSpaces s = s := by
  unfold replaceSpaces
  rw [escChars_of_no_space s.data h]

theorem no_space_capitalizeFirstLetter (s : String) (h : ' ' ∉ s.data) :
    ' ' ∉ (capitalizeFirstLetter s).data := by
  unfold capitalizeFirstLetter
  rw [data_mk]
  exact not_mem_titleCaseChars ' ' (by decide) s.data false h

/-! ### Cache and fetch lemmas -/

theorem cacheGet_set_self (c : Cache) (k : String) (v : FormattedWeatherData) :
    cacheGet (cacheSet c k v) k = some v := by
  simp [cacheGet, cacheSet]

theorem cacheGet_set_ne (c : Cache) (k key : String) (v : FormattedWeatherData)
    (h : key ≠ k) : cacheGet (cacheSet c k v) key = cacheGet c key := by
  simp [cacheGet, cacheSet, h]

theorem fetch_hit (env : Env) (cache : Cache) (q : String) (d : FormattedWeatherData)
    (hget : env.cacheGetFails = false)
    (hc : cacheGet cache (rkey q) = some d) :
    fetchWeatherData env cache q = ⟨.ok d, cache, [], [.get (rkey q)]⟩ := by
  unfold fetchWeatherData rkey at *
  rw [hget, hc]
  rfl

theorem fetch_miss_badRequest (env : Env) (cache : Cache) (q apiKey : String)
    (hget : env.cacheGetFails = false)
    (hc : cacheGet cache (rkey q) = none)
    (hkey : env.apiKeyEnv = some apiKey)
    (hp : env.provider (urlFor apiKey (wkey q)) = .badRequest) :
    fetchWeatherData env cache q =
      ⟨.err .noLocationFound, cache, [urlFor apiKey (wkey q)], [.get (rkey q)]⟩ := by
  unfold fetchWeatherData rkey wkey at *
  simp [hget, hc, hkey, hp]

theorem fetch_miss_badStatus (env : Env) (cache : Cache) (q apiKey : String)
    (hget : env.cacheGetFails = false)
    (hc : cacheGet cache (rkey q) = none)
    (hkey : env.apiKeyEnv = some apiKey)
    (hp : env.provider (urlFor apiKey (wkey q)) = .badStatus) :
    fetchWeatherData env cache q =
      ⟨.err .badStatus, cache, [urlFor apiKey (wkey q)], [.get (rkey q)]⟩ := by
  unfold fetchWeatherData rkey wkey at *
  simp [hget, hc, hkey, hp]

theorem fetch_miss_truncated (env : Env) (cache : Cache) (q apiKey : String)
    (hget : env.cacheGetFails = false)
    (hc : cacheGet cache (rkey q) = none)
    (hkey : env.apiKeyEnv = some apiKey)
    (hp : env.provider (urlFor apiKey (wkey q)) = .bodyTruncated) :
    fetchWeatherData env cache q =
      ⟨.err .unexpectedEndOfJSONInput, cache, [urlFor apiKey (wkey q)], [.get (rkey q)]⟩ := by
  unfold fetchWeatherData rkey wkey at *
  simp [hget, hc, hkey, hp]

theorem fetch_miss_mismatched (env : Env) (cache : Cache) (q apiKey : String)
    (hget : env.cacheGetFails = false)
    (hc : cacheGet cache (rkey q) = none)
    (hkey : env.apiKeyEnv = some apiKey)
    (hp : env.provider (urlFor apiKey (wkey q)) = .bodyMismatched) :
    fetchWeatherData env cache q =
      ⟨.err .unmarshalJSON, cache, [urlFor apiKey (wkey q)], [.get (rkey q)]⟩ := by
  unfold fetchWeatherData rkey wkey at *
  simp [hget, hc, hkey, hp]

theorem fetch_miss_ok (env : Env) (cache : Cache) (q apiKey : String) (w : Weather)
    (hget : env.cacheGetFails = false)
    (hc : cacheGet cache (rkey q) = none)
    (hkey : env.apiKeyEnv = some apiKey)
    (hp : env.provider (urlFor apiKey (wkey q)) = .ok w)
    (hset : env.cacheSetFails = false) :
    fetchWeatherData env cache q =
      ⟨.ok (formatWeatherData w), cacheSet cache (wkey q) (formatWeatherData w),
        [urlFor apiKey (wkey q)], [.get (rkey q), .set (wkey q)]⟩ := by
  unfold fetchWeatherData rkey wkey at *
  simp [hget, hc, hkey, hp, hset]

theorem fetch_miss_ok_setFails (env : Env) (cache : Cache) (q apiKey : String) (w : Weather)
    (hget : env.cacheGetFails = false)
    (hc : cacheGet cache (rkey q) = none)
    (hkey : env.apiKeyEnv = some apiKey)
    (hp : env.provider (urlFor apiKey (wkey q)) = .ok w)
    (hset : env.cacheSetFails = true) :
    fetchWeatherData env cache q =
      ⟨.fatal, cache, [urlFor apiKey (wkey q)], [.get (rkey q), .set (wkey q)]⟩ := by
  unfold fetchWeatherData rkey wkey at *
  simp [hget, hc, hkey, hp, hset]

theorem fetch_cache_monotone (env : Env) (cache : Cache) (q : String) :
    (fetchWeatherData env cache q).cache = cache ∨
      ∃ w, (fetchWeatherData env cache q).cache =
        cacheSet cache (wkey q) (formatWeatherData w) := by
  unfold fetchWeatherData wkey
  split
  · exact Or.inl rfl
  split
  · exact Or.inl rfl
  split
  · exact Or.inl rfl
  split <;> try exact Or.inl rfl
  split
  · exact Or.inl rfl
  · exact Or.inr ⟨_, rfl⟩

/-! ### Banding lemmas -/

theorem tempBand_disjoint (t : ℚ) (i j : Fin 9)
    (hi : tempBand i t) (hj : tempBand j t) : i = j := by
  fin_cases i <;> fin_cases j <;> simp_all [tempBand] <;> linarith

theorem tempBand_cover (t : ℚ) : ∃! i : Fin 9, tempBand i t := by
  rcases lt_or_le t (-20) with h | h0
  · exact ⟨0, h, fun j hj => tempBand_disjoint t j 0 hj h⟩
  rcases lt_or_le t (-10) with h | h1
  · exact ⟨1, ⟨h0, h⟩, fun j hj => tempBand_disjoint t j 1 hj ⟨h0, h⟩⟩
  rcases lt_or_le t 0 with h | h2
  · exact ⟨2, ⟨h1, h⟩, fun j hj => tempBand_disjoint t j 2 hj ⟨h1, h⟩⟩
  rcases lt_or_le t 10 with h | h3
  · exact ⟨3, ⟨h2, h⟩, fun j hj => tempBand_disjoint t j 3 hj ⟨h2, h⟩⟩
  rcases lt_or_le t 20 with h | h4
  · exact ⟨4, ⟨h3, h⟩, fun j hj => tempBand_disjoint t j 4 hj ⟨h3, h⟩⟩
  rcases lt_or_le t 30 with h | h5
  · exact ⟨5, ⟨h4, h⟩, fun j hj => tempBand_disjoint t j 5 hj ⟨h4, h⟩⟩
  rcases lt_or_le t 40 with h | h6
  · exact ⟨6, ⟨h5, h⟩, fun j hj => tempBand_disjoint t j 6 hj ⟨h5, h⟩⟩
  rcases lt_or_le t 50 with h | h7
  · exact ⟨7, ⟨h6, h⟩, fun j hj => tempBand_disjoint t j 7 hj ⟨h6, h⟩⟩
  · exact ⟨8, h7, fun j hj => tempBand_disjoint t j 8 hj h7⟩

theorem getTempColor_of_band (t : ℚ) (i : Fin 9) (h : tempBand i t) :
    getTempColor t = tempColor9 i := by
  fin_cases i <;> simp only [tempBand] at h <;> unfold getTempColor
  · rw [if_pos h]; rfl
  · obtain ⟨ha, hb⟩ := h
    rw [if_neg (by linarith), if_pos ⟨by linarith, hb⟩]; rfl
  · obtain ⟨ha, hb⟩ := h
    rw [if_neg (by linarith), if_neg (fun hh => absurd hh.2 (by linarith)),
      if_pos ⟨by linarith, hb⟩]; rfl
  · obtain ⟨ha, hb⟩ := h
    rw [if_neg (by linarith), if_neg (fun hh => absurd hh.2 (by linarith)),
      if_neg (fun hh => absurd hh.2 (by linarith)), if_pos ⟨by linarith, hb⟩]; rfl
  · obtain ⟨ha, hb⟩ := h
    rw [if_neg (by linarith), if_neg (fun hh => absurd hh.2 (by linarith)),
      if_neg (fun hh => absurd hh.2 (by linarith)),
      if_neg (fun hh => absurd hh.2 (by linarith)), if_pos ⟨by linarith, hb⟩]; rfl
  · obtain ⟨ha, hb⟩ := h
    rw [if_neg (by linarith), if_neg (fun hh => absurd hh.2 (by linarith)),
      if_neg (fun hh => absurd hh.2 (by linarith)),
      if_neg (fun hh => absurd hh.2 (by linarith)),
      if_neg (fun hh => absurd hh.2 (by linarith)), if_pos ⟨by linarith, hb⟩]; rfl
  · obtain ⟨ha, hb⟩ := h
    rw [if_neg (by linarith), if_neg (fun hh => absurd hh.2 (by linarith)),
      if_neg (fun hh => absurd hh.2 (by linarith)),
      if_neg (fun hh => absurd hh.2 (by linarith)),
      if_neg (fun hh => absurd hh.2 (by linarith)),
      if_neg (fun hh => absurd hh.2 (by linarith)), if_pos ⟨by linarith, hb⟩]; rfl
  · obtain ⟨ha, hb⟩ := h
    rw [if_neg (by linarith), if_neg (fun hh => absurd hh.2 (by linarith)),
      if_neg (fun hh => absurd hh.2 (by linarith)),
      if_neg (fun hh => absurd hh.2 (by linarith)),
      if_neg (fun hh => absurd hh.2 (by linarith)),
      if_neg (fun hh => absurd hh.2 (by linarith)),
      if_neg (fun hh => absurd hh.2 (by linarith)), if_pos ⟨by linarith, hb⟩]; rfl
  · rw [if_neg (by linarith), if_neg (fun hh => absurd hh.2 (by linarith)),
      if_neg (fun hh => absurd hh.2 (by linarith)),
      if_neg (fun hh => absurd hh.2 (by linarith)),
      if_neg (fun hh => absurd hh.2 (by linarith)),
      if_neg (fun hh => absurd hh.2 (by linarith)),
      if_neg (fun hh => absurd hh.2 (by linarith)),
      if_neg (fun hh => absurd hh.2 (by linarith)), if_pos h]; rfl

theorem windBand_disjoint (w : ℚ) (i j : Fin 5)
    (hi : windBand i w) (hj : windBand j w) : i = j := by
  fin_cases i <;> fin_cases j <;> simp_all [windBand] <;> linarith

theorem windBand_cover (w : ℚ) (hw : 0 ≤ w) : ∃! i : Fin 5, windBand i w := by
  rcases lt_or_le w 10 with h | h1
  · exact ⟨0, ⟨hw, h⟩, fun j hj => windBand_disjoint w j 0 hj ⟨hw, h⟩⟩
  rcases lt_or_le w 20 with h | h2
  · exact ⟨1, ⟨h1, h⟩, fun j hj => windBand_disjoint w j 1 hj ⟨h1, h⟩⟩
  rcases lt_or_le w 40 with h | h3
  · exact ⟨2, ⟨h2, h⟩, fun j hj => windBand_disjoint w j 2 hj ⟨h2, h⟩⟩
  rcases lt_or_le w 60 with h | h4
  · exact ⟨3, ⟨h3, h⟩, fun j hj => windBand_disjoint w j 3 hj ⟨h3, h⟩⟩
  · exact ⟨4, h4, fun j hj => windBand_disjoint w j 4 hj h4⟩

theorem getWindColor_of_band (w : ℚ) (i : Fin 5) (h : windBand i w) :
    getWindColor w = windColor5 i := by
  fin_cases i <;> simp only [windBand] at h <;> unfold getWindColor
  · rw [if_pos h]; rfl
  · obtain ⟨ha, hb⟩ := h
    rw [if_neg (fun hh => absurd hh.2 (by linarith)), if_pos ⟨by linarith, hb⟩]; rfl
  · obtain ⟨ha, hb⟩ := h
    rw [if_neg (fun hh => absurd hh.2 (by linarith)),
      if_neg (fun hh => absurd hh.2 (by linarith)), if_pos ⟨by linarith, hb⟩]; rfl
  · obtain ⟨ha, hb⟩ := h
    rw [if_neg (fun hh => absurd hh.2 (by linarith)),
      if_neg (fun hh => absurd hh.2 (by linarith)),
      if_neg (fun hh => absurd hh.2 (by linarith)), if_pos ⟨by linarith, hb⟩]; rfl
  · rw [if_neg (fun hh => absurd hh.2 (by linarith)),
      if_neg (fun hh => absurd hh.2 (by linarith)),
      if_neg (fun hh => absurd hh.2 (by linarith)),
      if_neg (fun hh => absurd hh.2 (by linarith)), if_pos h]; rfl

theorem getWindColor_fallback (w : ℚ) (hw : w < 0) : getWindColor w = "#FFFFFF" := by
  unfold getWindColor
  rw [if_neg (fun hh => absurd hh.1 (by linarith)),
    if_neg (fun hh => absurd hh.1 (by linarith)),
    if_neg (fun hh => absurd hh.1 (by linarith)),
    if_neg (fun hh => absurd hh.1 (by linarith)),
    if_neg (by intro hh; linarith)]

theorem cloudBand_disjoint (cl : ℤ) (i j : Fin 5)
    (hi : cloudBand i cl) (hj : cloudBand j cl) : i = j := by
  fin_cases i <;> fin_cases j <;> simp_all [cloudBand] <;> omega

theorem cloudBand_cover (cl : ℤ) (h0 : 0 ≤ cl) (h100 : cl ≤ 100) :
    ∃! i : Fin 5, cloudBand i cl := by
  rcases lt_or_le cl 10 with h | h1
  · exact ⟨0, ⟨h0, h⟩, fun j hj => cloudBand_disjoint cl j 0 hj ⟨h0, h⟩⟩
  rcases lt_or_le cl 30 with h | h2
  · exact ⟨1, ⟨h1, h⟩, fun j hj => cloudBand_disjoint cl j 1 hj ⟨h1, h⟩⟩
  rcases lt_or_le cl 60 with h | h3
  · exact ⟨2, ⟨h2, h⟩, fun j hj => cloudBand_disjoint cl j 2 hj ⟨h2, h⟩⟩
  rcases lt_or_le cl 90 with h | h4
  · exact ⟨3, ⟨h3, h⟩, fun j hj => cloudBand_disjoint cl j 3 hj ⟨h3, h⟩⟩
  · exact ⟨4, ⟨h4, h100⟩, fun j hj => cloudBand_disjoint cl j 4 hj ⟨h4, h100⟩⟩

theorem getCloudColor_of_band (cl : ℤ) (i : Fin 5) (h : cloudBand i cl) :
    getCloudColor cl = cloudColor5 i := by
  fin_cases i <;> simp only [cloudBand] at h <;> unfold getCloudColor <;> obtain ⟨ha, hb⟩ := h
  · rw [if_pos ⟨ha, hb⟩]; rfl
  · rw [if_neg (fun hh => absurd hh.2 (by omega)), if_pos ⟨by omega, hb⟩]; rfl
  · rw [if_neg (fun hh => absurd hh.2 (by omega)),
      if_neg (fun hh => absurd hh.2 (by omega)), if_pos ⟨by omega, hb⟩]; rfl
  · rw [if_neg (fun hh => absurd hh.2 (by omega)),
      if_neg (fun hh => absurd hh.2 (by omega)),
      if_neg (fun hh => absurd hh.2 (by omega)), if_pos ⟨by omega, hb⟩]; rfl
  · rw [if_neg (fun hh => absurd hh.2 (by omega)),
      if_neg (fun hh => absurd hh.2 (by omega)),
      if_neg (fun hh => absurd hh.2 (by omega)),
      if_neg (fun hh => absurd hh.2 (by omega)), if_pos ⟨by omega, hb⟩]; rfl

theorem getCloudColor_fallback (cl : ℤ) (h : cl < 0 ∨ 100 < cl) :
    getCloudColor cl = "#FFFFFF" := by
  unfold getCloudColor
  rcases h with h | h
  · rw [if_neg (fun hh => absurd hh.1 (by omega)),
      if_neg (fun hh => absurd hh.1 (by omega)),
      if_neg (fun hh => absurd hh.1 (by omega)),
      if_neg (fun hh => absurd hh.1 (by omega)),
      if_neg (fun hh => absurd hh.1 (by omega))]
  · rw [if_neg (fun hh => absurd hh.2 (by omega)),
      if_neg (fun hh => absurd hh.2 (by omega)),
      if_neg (fun hh => absurd hh.2 (by omega)),
      if_neg (fun hh => absurd hh.2 (by omega)),
      if_neg (fun hh => absurd hh.2 (by omega))]

/-! ### Bulk fetch lemmas -/

theorem bulk_nil (env : Env) (cache : Cache) :
    fetchBulkWeatherData env cache [] = ⟨[], [], none, false, cache, [], []⟩ := rfl

theorem bulk_cons_fatal (env : Env) (cache : Cache) (q : String) (qs : List String)
    (hres : (fetchWeatherData env cache q).result = .fatal) :
    fetchBulkWeatherData env cache (q :: qs) =
      ⟨[], [], none, true, (fetchWeatherData env cache q).cache,
        (fetchWeatherData env cache q).providerCalls,
        (fetchWeatherData env cache q).cacheOps⟩ := by
  simp only [fetchBulkWeatherData, hres]

theorem bulk_cons_abort (env : Env) (cache : Cache) (q : String) (qs : List String)
    (e : SvcError) (hres : (fetchWeatherData env cache q).result = .err e)
    (hne : e ≠ .noLocationFound) :
    fetchBulkWeatherData env cache (q :: qs) =
      ⟨[], [], some e, false, (fetchWeatherData env cache q).cache,
        (fetchWeatherData env cache q).providerCalls,
        (fetchWeatherData env cache q).cacheOps⟩ := by
  simp only [fetchBulkWeatherData, hres, if_neg hne]

theorem bulk_cons_notFound (env : Env) (cache : Cache) (q : String) (qs : List String)
    (hres : (fetchWeatherData env cache q).result = .err .noLocationFound) :
    fetchBulkWeatherData env cache (q :: qs) =
      if (fetchBulkWeatherData env (fetchWeatherData env cache q).cache qs).fatal then
        ⟨[], [], none, true,
          (fetchBulkWeatherData env (fetchWeatherData env cache q).cache qs).cache,
          (fetchWeatherData env cache q).providerCalls ++
            (fetchBulkWeatherData env (fetchWeatherData env cache q).cache qs).providerCalls,
          (fetchWeatherData env cache q).cacheOps ++
            (fetchBulkWeatherData env (fetchWeatherData env cache q).cache qs).cacheOps⟩
      else if (fetchBulkWeatherData env (fetchWeatherData env cache q).cache qs).error.isSome then
        ⟨[], [],
          (fetchBulkWeatherData env (fetchWeatherData env cache q).cache qs).error, false,
          (fetchBulkWeatherData env (fetchWeatherData env cache q).cache qs).cache,
          (fetchWeatherData env cache q).providerCalls ++
            (fetchBulkWeatherData env (fetchWeatherData env cache q).cache qs).providerCalls,
          (fetchWeatherData env cache q).cacheOps ++
            (fetchBulkWeatherData env (fetchWeatherData env cache q).cache qs).cacheOps⟩
      else
        ⟨(fetchBulkWeatherData env (fetchWeatherData env cache q).cache qs).found,
          notFoundMsg q ::
            (fetchBulkWeatherData env (fetchWeatherData env cache q).cache qs).notFoundList,
          none, false,
          (fetchBulkWeatherData env (fetchWeatherData env cache q).cache qs).cache,
          (fetchWeatherData env cache q).providerCalls ++
            (fetchBulkWeatherData env (fetchWeatherData env cache q).cache qs).providerCalls,
          (fetchWeatherData env cache q).cacheOps ++
            (fetchBulkWeatherData env (fetchWeatherData env cache q).cache qs).cacheOps⟩ := by
  rcases hb : fetchBulkWeatherData env (fetchWeatherData env cache q).cache qs with
    ⟨fnd, nf, er, ft, ca, cl, op⟩
  simp only [fetchBulkWeatherData, hres, hb]
  rw [if_pos trivial]

theorem bulk_cons_ok (env : Env) (cache : Cache) (q : String) (qs : List String)
    (d : FormattedWeatherData) (hres : (fetchWeatherData env cache q).result = .ok d) :
    fetchBulkWeatherData env cache (q :: qs) =
      if (fetchBulkWeatherData env (fetchWeatherData env cache q).cache qs).fatal then
        ⟨[], [], none, true,
          (fetchBulkWeatherData env (fetchWeatherData env cache q).cache qs).cache,
          (fetchWeatherData env cache q).providerCalls ++
            (fetchBulkWeatherData env (fetchWeatherData env cache q).cache qs).providerCalls,
          (fetchWeatherData env cache q).cacheOps ++
            (fetchBulkWeatherData env (fetchWeatherData env cache q).cache qs).cacheOps⟩
      else if (fetchBulkWeatherData env (fetchWeatherData env cache q).cache qs).error.isSome then
        ⟨[], [],
          (fetchBulkWeatherData env (fetchWeatherData env cache q).cache qs).error, false,
          (fetchBulkWeatherData env (fetchWeatherData env cache q).cache qs).cache,
          (fetchWeatherData env cache q).providerCalls ++
            (fetchBulkWeatherData env (fetchWeatherData env cache q).cache qs).providerCalls,
          (fetchWeatherData env cache q).cacheOps ++
            (fetchBulkWeatherData env (fetchWeatherData env cache q).cache qs).cacheOps⟩
      else
        ⟨d :: (fetchBulkWeatherData env (fetchWeatherData env cache q).cache qs).found,
          (fetchBulkWeatherData env (fetchWeatherData env cache q).cache qs).notFoundList,
          none, false,
          (fetchBulkWeatherData env (fetchWeatherData env cache q).cache qs).cache,
          (fetchWeatherData env cache q).providerCalls ++
            (fetchBulkWeatherData env (fetchWeatherData env cache q).cache qs).providerCalls,
          (fetchWeatherData env cache q).cacheOps ++
            (fetchBulkWeatherData env (fetchWeatherData env cache q).cache qs).cacheOps⟩ := by
  rcases hb : fetchBulkWeatherData env (fetchWeatherData env cache q).cache qs with
    ⟨fnd, nf, er, ft, ca, cl, op⟩
  simp only [fetchBulkWeatherData, hres, hb]

theorem bulk_error_inversion (qs : List String) :
    ∀ (env : Env) (cache : Cache) (e : SvcError),
      (fetchBulkWeatherData env cache qs).error = some e →
      (fetchBulkWeatherData env cache qs).found = [] ∧
      (fetchBulkWeatherData env cache qs).notFoundList = [] ∧
      e ≠ .noLocationFound := by
  induction qs with
  | nil =>
    intro env cache e he
    simp [bulk_nil] at he
  | cons q qs ih =>
    intro env cache e he
    rcases hres : (fetchWeatherData env cache q).result with d | e0 | _
    · have ih2 := ih env (fetchWeatherData env cache q).cache
      rcases hb : fetchBulkWeatherData env (fetchWeatherData env cache q).cache qs with
        ⟨fnd, nf, er, ft, ca, cl, op⟩
      rw [hb] at ih2
      rw [bulk_cons_ok env cache q qs d hres, hb] at he ⊢
      dsimp only at he ih2 ⊢
      split_ifs at he ⊢ with h1 h2
      exact ⟨rfl, rfl, (ih2 e he).2.2⟩
    · by_cases hnf : e0 = SvcError.noLocationFound
      · subst hnf
        have ih2 := ih env (fetchWeatherData env cache q).cache
        rcases hb : fetchBulkWeatherData env (fetchWeatherData env cache q).cache qs with
          ⟨fnd, nf, er, ft, ca, cl, op⟩
        rw [hb] at ih2
        rw [bulk_cons_notFound env cache q qs hres, hb] at he ⊢
        dsimp only at he ih2 ⊢
        split_ifs at he ⊢ with h1 h2
        exact ⟨rfl, rfl, (ih2 e he).2.2⟩
      · rw [bulk_cons_abort env cache q qs e0 hres hnf] at he ⊢
        dsimp only at he ⊢
        obtain rfl : e0 = e := by simpa using he
        exact ⟨rfl, rfl, hnf⟩
    · rw [bulk_cons_fatal env cache q qs hres] at he
      exact absurd he (by simp)

theorem bulk_partition (qs : List String) :
    ∀ (env : Env) (cache : Cache),
      (fetchBulkWeatherData env cache qs).fatal = false →
      (fetchBulkWeatherData env cache qs).error = none →
      (fetchBulkWeatherData env cache qs).found.length +
          (fetchBulkWeatherData env cache qs).notFoundList.length = qs.length ∧
        ∀ m ∈ (fetchBulkWeatherData env cache qs).notFoundList,
          ∃ q ∈ qs, m = notFoundMsg q := by
  induction qs with
  | nil =>
    intro env cache _ _
    refine ⟨rfl, ?_⟩
    intro m hm
    simp [bulk_nil] at hm
  | cons q qs ih =>
    intro env cache hfat herr
    rcases hres : (fetchWeatherData env cache q).result with d | e0 | _
    · have ih2 := ih env (fetchWeatherData env cache q).cache
      rcases hb : fetchBulkWeatherData env (fetchWeatherData env cache q).cache qs with
        ⟨fnd, nf, er, ft, ca, cl, op⟩
      rw [hb] at ih2
      rw [bulk_cons_ok env cache q qs d hres, hb] at hfat herr ⊢
      dsimp only at hfat herr ih2 ⊢
      split_ifs at hfat herr ⊢ with h1 h2
      · have her : er = none := by simpa using herr
        rw [her] at h2
        simp at h2
      · have hft : ft = false := by simpa using h1
        have her : er = none := Option.not_isSome_iff_eq_none.mp h2
        obtain ⟨hlen, hmsg⟩ := ih2 hft her
        refine ⟨?_, ?_⟩
        · simp only [List.length_cons]
          omega
        · intro m hm
          obtain ⟨q2, hq2, hm2⟩ := hmsg m hm
          exact ⟨q2, List.mem_cons_of_mem _ hq2, hm2⟩
    · by_cases hnf : e0 = SvcError.noLocationFound
      · subst hnf
        have ih2 := ih env (fetchWeatherData env cache q).cache
        rcases hb : fetchBulkWeatherData env (fetchWeatherData env cache q).cache qs with
          ⟨fnd, nf, er, ft, ca, cl, op⟩
        rw [hb] at ih2
        rw [bulk_cons_notFound env cache q qs hres, hb] at hfat herr ⊢
        dsimp only at hfat herr ih2 ⊢
        split_ifs at hfat herr ⊢ with h1 h2
        · have her : er = none := by simpa using herr
          rw [her] at h2
          simp at h2
        · have hft : ft = false := by simpa using h1
          have her : er = none := Option.not_isSome_iff_eq_none.mp h2
          obtain ⟨hlen, hmsg⟩ := ih2 hft her
          refine ⟨?_, ?_⟩
          · simp only [List.length_cons]
            omega
          · intro m hm
            simp only [List.mem_cons] at hm
            rcases hm with hm | hm
            · exact ⟨q, List.mem_cons_self q qs, hm⟩
            · obtain ⟨q2, hq2, hm2⟩ := hmsg m hm
              exact ⟨q2, List.mem_cons_of_mem _ hq2, hm2⟩
      · rw [bulk_cons_abort env cache q qs e0 hres hnf] at herr
        exact absurd herr (by simp)
    · rw [bulk_cons_fatal env cache q qs hres] at hfat
      exact absurd hfat (by simp)

/-! ### Refresh lemmas -/

theorem noConflictK_spec (p q : String × String) (h : noConflictK p q = true) :
    p.2 ≠ q.2 ∧ q.1 ≠ p.2 := by
  simp only [noConflictK, Bool.and_eq_true, decide_eq_true_eq] at h
  exact h

theorem freshCheckAux_cons (p : String × String) (rest : List (String × String))
    (h : freshCheckAux (p :: rest) = true) :
    (∀ q ∈ rest, noConflictK p q = true) ∧ freshCheckAux rest = true := by
  simp only [freshCheckAux, Bool.and_eq_true, List.all_eq_true] at h
  exact h

theorem refreshLoop_nil (env : Env) (cache : Cache) :
    refreshLoop env cache [] = ⟨false, cache, [], []⟩ := rfl

theorem refreshLoop_cons_fatal (env : Env) (cache : Cache) (l : String) (ls : List String)
    (hres : (fetchWeatherData env cache l).result = .fatal) :
    refreshLoop env cache (l :: ls) =
      ⟨true, (fetchWeatherData env cache l).cache,
        (fetchWeatherData env cache l).providerCalls,
        (fetchWeatherData env cache l).cacheOps⟩ := by
  simp only [refreshLoop, hres]

theorem refreshLoop_cons_ok (env : Env) (cache : Cache) (l : String) (ls : List String)
    (d : FormattedWeatherData)
    (hres : (fetchWeatherData env cache l).result = .ok d) :
    refreshLoop env cache (l :: ls) =
      ⟨(refreshLoop env (fetchWeatherData env cache l).cache ls).fatal,
        (refreshLoop env (fetchWeatherData env cache l).cache ls).cache,
        (fetchWeatherData env cache l).providerCalls ++
          (refreshLoop env (fetchWeatherData env cache l).cache ls).providerCalls,
        (fetchWeatherData env cache l).cacheOps ++
          (refreshLoop env (fetchWeatherData env cache l).cache ls).cacheOps⟩ := by
  rcases hb : refreshLoop env (fetchWeatherData env cache l).cache ls with ⟨ft, ca, cl, op⟩
  simp only [refreshLoop, hres, hb]

theorem refreshLoop_cons_err (env : Env) (cache : Cache) (l : String) (ls : List String)
    (e : SvcError)
    (hres : (fetchWeatherData env cache l).result = .err e) :
    refreshLoop env cache (l :: ls) =
      ⟨(refreshLoop env (fetchWeatherData env cache l).cache ls).fatal,
        (refreshLoop env (fetchWeatherData env cache l).cache ls).cache,
        (fetchWeatherData env cache l).providerCalls ++
          (refreshLoop env (fetchWeatherData env cache l).cache ls).providerCalls,
        (fetchWeatherData env cache l).cacheOps ++
          (refreshLoop env (fetchWeatherData env cache l).cache ls).cacheOps⟩ := by
  rcases hb : refreshLoop env (fetchWeatherData env cache l).cache ls with ⟨ft, ca, cl, op⟩
  simp only [refreshLoop, hres, hb]

theorem refreshLoop_invariant (env : Env) (apiKey : String)
    (hget : env.cacheGetFails = false) (hset : env.cacheSetFails = false)
    (hkey : env.apiKeyEnv = some apiKey) (ls : List String) :
    ∀ cache : Cache,
      freshCheckAux (ls.map fun l => (rkey l, wkey l)) = true →
      (∀ l ∈ ls, cacheGet cache (rkey l) = none) →
      (refreshLoop env cache ls).fatal = false ∧
      (refreshLoop env cache ls).providerCalls =
        ls.map (fun l => urlFor apiKey (wkey l)) ∧
      (∀ l ∈ ls, ∀ w, env.provider (urlFor apiKey (wkey l)) = .ok w →
        cacheGet (refreshLoop env cache ls).cache (wkey l) =
          some (formatWeatherData w)) ∧
      (∀ key, cacheGet (refreshLoop env cache ls).cache key = cacheGet cache key ∨
        ∃ l ∈ ls, key = wkey l) ∧
      CacheOp.flush ∉ (refreshLoop env cache ls).cacheOps := by
  induction ls with
  | nil =>
    intro cache _ _
    refine ⟨rfl, rfl, ?_, ?_, ?_⟩
    · intro l hl; simp at hl
    · intro key; exact Or.inl rfl
    · simp [refreshLoop_nil]
  | cons l ls ih =>
    intro cache hfresh hmiss
    rw [List.map_cons] at hfresh
    obtain ⟨hall, hfresh2⟩ := freshCheckAux_cons _ _ hfresh
    have hmissl : cacheGet cache (rkey l) = none := hmiss l (List.mem_cons_self l ls)
    have hconf : ∀ l2 ∈ ls, wkey l ≠ wkey l2 ∧ rkey l2 ≠ wkey l := by
      intro l2 hl2
      exact noConflictK_spec _ _
        (hall _ (List.mem_map_of_mem (fun x => (rkey x, wkey x)) hl2))
    rcases hp : env.provider (urlFor apiKey (wkey l)) with _ | _ | _ | _ | w
    case badRequest =>
      have hf := fetch_miss_badRequest env cache l apiKey hget hmissl hkey hp
      have hmiss2 : ∀ l2 ∈ ls,
          cacheGet (fetchWeatherData env cache l).cache (rkey l2) = none := by
        intro l2 hl2
        rw [hf]
        exact hmiss l2 (List.mem_cons_of_mem _ hl2)
      obtain ⟨ih1, ih2, ih3, ih4, ih5⟩ := ih (fetchWeatherData env cache l).cache hfresh2 hmiss2
      rw [refreshLoop_cons_err env cache l ls .noLocationFound (by rw [hf])]
      rw [hf] at ih1 ih2 ih3 ih4 ih5 ⊢
      dsimp only at ih1 ih2 ih3 ih4 ih5 ⊢
      refine ⟨ih1, ?_, ?_, ?_, ?_⟩
      · rw [ih2, List.map_cons]
        rfl
      · intro l2 hl2 w2 hw2
        rcases List.mem_cons.mp hl2 with rfl | hl2
        · rw [hp] at hw2
          cases hw2
        · exact ih3 l2 hl2 w2 hw2
      · intro key
        rcases ih4 key with h4 | ⟨l3, hl3, hkeq⟩
        · exact Or.inl h4
        · exact Or.inr ⟨l3, List.mem_cons_of_mem _ hl3, hkeq⟩
      · intro hmem
        rcases List.mem_append.mp hmem with hmem2 | hmem2
        · simp at hmem2
        · exact ih5 hmem2
    case badStatus =>
      have hf := fetch_miss_badStatus env cache l apiKey hget hmissl hkey hp
      have hmiss2 : ∀ l2 ∈ ls,
          cacheGet (fetchWeatherData env cache l).cache (rkey l2) = none := by
        intro l2 hl2
        rw [hf]
        exact hmiss l2 (List.mem_cons_of_mem _ hl2)
      obtain ⟨ih1, ih2, ih3, ih4, ih5⟩ := ih (fetchWeatherData env cache l).cache hfresh2 hmiss2
      rw [refreshLoop_cons_err env cache l ls .badStatus (by rw [hf])]
      rw [hf] at ih1 ih2 ih3 ih4 ih5 ⊢
      dsimp only at ih1 ih2 ih3 ih4 ih5 ⊢
      refine ⟨ih1, ?_, ?_, ?_, ?_⟩
      · rw [ih2, List.map_cons]
        rfl
      · intro l2 hl2 w2 hw2
        rcases List.mem_cons.mp hl2 with rfl | hl2
        · rw [hp] at hw2
          cases hw2
        · exact ih3 l2 hl2 w2 hw2
      · intro key
        rcases ih4 key with h4 | ⟨l3, hl3, hkeq⟩
        · exact Or.inl h4
        · exact Or.inr ⟨l3, List.mem_cons_of_mem _ hl3, hkeq⟩
      · intro hmem
        rcases List.mem_append.mp hmem with hmem2 | hmem2
        · simp at hmem2
        · exact ih5 hmem2
    case bodyTruncated =>
      have hf := fetch_miss_truncated env cache l apiKey hget hmissl hkey hp
      have hmiss2 : ∀ l2 ∈ ls,
          cacheGet (fetchWeatherData env cache l).cache (rkey l2) = none := by
        intro l2 hl2
        rw [hf]
        exact hmiss l2 (List.mem_cons_of_mem _ hl2)
      obtain ⟨ih1, ih2, ih3, ih4, ih5⟩ := ih (fetchWeatherData env cache l).cache hfresh2 hmiss2
      rw [refreshLoop_cons_err env cache l ls .unexpectedEndOfJSONInput (by rw [hf])]
      rw [hf] at ih1 ih2 ih3 ih4 ih5 ⊢
      dsimp only at ih1 ih2 ih3 ih4 ih5 ⊢
      refine ⟨ih1, ?_, ?_, ?_, ?_⟩
      · rw [ih2, List.map_cons]
        rfl
      · intro l2 hl2 w2 hw2
        rcases List.mem_cons.mp hl2 with rfl | hl2
        · rw [hp] at hw2
          cases hw2
        · exact ih3 l2 hl2 w2 hw2
      · intro key
        rcases ih4 key with h4 | ⟨l3, hl3, hkeq⟩
        · exact Or.inl h4
        · exact Or.inr ⟨l3, List.mem_cons_of_mem _ hl3, hkeq⟩
      · intro hmem
        rcases List.mem_append.mp hmem with hmem2 | hmem2
        · simp at hmem2
        · exact ih5 hmem2
    case bodyMismatched =>
      have hf := fetch_miss_mismatched env cache l apiKey hget hmissl hkey hp
      have hmiss2 : ∀ l2 ∈ ls,
          cacheGet (fetchWeatherData env cache l).cache (rkey l2) = none := by
        intro l2 hl2
        rw [hf]
        exact hmiss l2 (List.mem_cons_of_mem _ hl2)
      obtain ⟨ih1, ih2, ih3, ih4, ih5⟩ := ih (fetchWeatherData env cache l).cache hfresh2 hmiss2
      rw [refreshLoop_cons_err env cache l ls .unmarshalJSON (by rw [hf])]
      rw [hf] at ih1 ih2 ih3 ih4 ih5 ⊢
      dsimp only at ih1 ih2 ih3 ih4 ih5 ⊢
      refine ⟨ih1, ?_, ?_, ?_, ?_⟩
      · rw [ih2, List.map_cons]
        rfl
      · intro l2 hl2 w2 hw2
        rcases List.mem_cons.mp hl2 with rfl | hl2
        · rw [hp] at hw2
          cases hw2
        · exact ih3 l2 hl2 w2 hw2
      · intro key
        rcases ih4 key with h4 | ⟨l3, hl3, hkeq⟩
        · exact Or.inl h4
        · exact Or.inr ⟨l3, List.mem_cons_of_mem _ hl3, hkeq⟩
      · intro hmem
        rcases List.mem_append.mp hmem with hmem2 | hmem2
        · simp at hmem2
        · exact ih5 hmem2
    case ok =>
      have hf := fetch_miss_ok env cache l apiKey w hget hmissl hkey hp hset
      have hmiss2 : ∀ l2 ∈ ls,
          cacheGet (fetchWeatherData env cache l).cache (rkey l2) = none := by
        intro l2 hl2
        rw [hf]
        show cacheGet (cacheSet cache (wkey l) (formatWeatherData w)) (rkey l2) = none
        rw [cacheGet_set_ne _ _ _ _ (hconf l2 hl2).2]
        exact hmiss l2 (List.mem_cons_of_mem _ hl2)
      obtain ⟨ih1, ih2, ih3, ih4, ih5⟩ := ih (fetchWeatherData env cache l).cache hfresh2 hmiss2
      rw [refreshLoop_cons_ok env cache l ls (formatWeatherData w) (by rw [hf])]
      rw [hf] at ih1 ih2 ih3 ih4 ih5 ⊢
      dsimp only at ih1 ih2 ih3 ih4 ih5 ⊢
      refine ⟨ih1, ?_, ?_, ?_, ?_⟩
      · rw [ih2, List.map_cons]
        rfl
      · intro l2 hl2 w2 hw2
        rcases List.mem_cons.mp hl2 with rfl | hl2
        · rw [hp] at hw2
          obtain rfl : w = w2 := by injection hw2
          rcases ih4 (wkey l2) with h4 | ⟨l3, hl3, hkeq⟩
          · rw [h4]
            exact cacheGet_set_self _ _ _
          · exact absurd hkeq (hconf l3 hl3).1
        · exact ih3 l2 hl2 w2 hw2
      · intro key
        rcases ih4 key with h4 | ⟨l3, hl3, hkeq⟩
        · by_cases hk : key = wkey l
          · exact Or.inr ⟨l, List.mem_cons_self l ls, hk⟩
          · rw [h4, cacheGet_set_ne _ _ _ _ hk]
            exact Or.inl rfl
        · exact Or.inr ⟨l3, List.mem_cons_of_mem _ hl3, hkeq⟩
      · intro hmem
        rcases List.mem_append.mp hmem with hmem2 | hmem2
        · simp at hmem2
        · exact ih5 hmem2

/-! ### Roster freshness (decided once on the concrete roster) -/

set_option maxRecDepth 10000 in
theorem fresh_country_list : freshCheck country_list = true := by decide

/-! ### Claims -/

/-- Claim C1 (counterexample): cache-aside idempotence fails for a query with
a space.  For "new york" the first call succeeds and caches the record under
the escaped key "New%20York", but the second call reads the unescaped key
"New York", misses, and performs another provider request. -/
theorem c1_counterexample :
    (fetchWeatherData env1 [] "new york").result = .ok (formatWeatherData w0) ∧
      (fetchWeatherData env1 (fetchWeatherData env1 [] "new york").cache
        "new york").providerCalls ≠ [] := by decide

/-- Claim C1 (amended): for every query whose text contains no space, two
consecutive `FetchWeatherData` calls within the TTL window return the same
record, and the second performs no provider request and no cache write — it
is served by the single cache read. -/
theorem c1_cache_idempotence_no_space (env : Env) (cache : Cache) (q : String)
    (d : FormattedWeatherData)
    (hget : env.cacheGetFails = false)
    (hsp : ' ' ∉ q.data)
    (hok : (fetchWeatherData env cache q).result = .ok d) :
    fetchWeatherData env (fetchWeatherData env cache q).cache q =
      ⟨.ok d, (fetchWeatherData env cache q).cache, [], [.get (rkey q)]⟩ := by
  have hkeys : wkey q = rkey q := by
    unfold wkey rkey
    rw [capitalizeFirstLetter_idem]
    exact replaceSpaces_of_no_space _ (no_space_capitalizeFirstLetter q hsp)
  rcases hc : cacheGet cache (rkey q) with _ | d0
  · -- first call missed the cache
    rcases hkey : env.apiKeyEnv with _ | apiKey
    · unfold rkey at hc
      unfold fetchWeatherData at hok
      rw [hget, hc, hkey] at hok
      simp at hok
    rcases hp : env.provider (urlFor apiKey (wkey q)) with _ | _ | _ | _ | w
    case badRequest =>
      rw [fetch_miss_badRequest env cache q apiKey hget hc hkey hp] at hok
      simp at hok
    case badStatus =>
      rw [fetch_miss_badStatus env cache q apiKey hget hc hkey hp] at hok
      simp at hok
    case bodyTruncated =>
      rw [fetch_miss_truncated env cache q apiKey hget hc hkey hp] at hok
      simp at hok
    case bodyMismatched =>
      rw [fetch_miss_mismatched env cache q apiKey hget hc hkey hp] at hok
      simp at hok
    case ok =>
      rcases hset : env.cacheSetFails with _ | _
      · have hf := fetch_miss_ok env cache q apiKey w hget hc hkey hp hset
        rw [hf] at hok ⊢
        dsimp only at hok ⊢
        obtain rfl : formatWeatherData w = d := by injection hok
        refine fetch_hit env _ q _ hget ?_
        rw [hkeys]
        exact cacheGet_set_self _ _ _
      · rw [fetch_miss_ok_setFails env cache q apiKey w hget hc hkey hp hset] at hok
        simp at hok
  · -- first call hit the cache
    have hf := fetch_hit env cache q d0 hget hc
    rw [hf] at hok ⊢
    dsimp only at hok ⊢
    have hd : d0 = d := by injection hok
    subst hd
    exact fetch_hit env cache q d0 hget hc

/-- Claim C1 witness at the space-free query "london". -/
theorem c1_cache_idempotence_no_space_witness :
    fetchWeatherData env1 (fetchWeatherData env1 [] "london").cache "london" =
      ⟨.ok (formatWeatherData w0), (fetchWeatherData env1 [] "london").cache,
        [], [.get (rkey "london")]⟩ :=
  c1_cache_idempotence_no_space env1 [] "london" (formatWeatherData w0)
    rfl (by decide) (by decide)

/-- Claim C2 (counterexample): when the Redis SET fails after a successful
provider fetch, `FetchWeatherData` does not return the formatted record with
a nil error — `log.Fatalf` terminates the process. -/
theorem c2_counterexample :
    (fetchWeatherData env2 [] "london").result = .fatal ∧
      (fetchWeatherData env2 [] "london").result ≠
        .ok (formatWeatherData w0) := by decide

/-- Claim C2 (amended): a cache-store write failure after a successful
provider call and parse is fatal: `log.Fatalf` kills the process, so the
call never returns (neither the record nor an error), and the cache is left
unchanged. -/
theorem c2_cache_write_failure_fatal (env : Env) (cache : Cache)
    (q apiKey : String) (w : Weather)
    (hget : env.cacheGetFails = false)
    (hc : cacheGet cache (rkey q) = none)
    (hkey : env.apiKeyEnv = some apiKey)
    (hp : env.provider (urlFor apiKey (wkey q)) = .ok w)
    (hset : env.cacheSetFails = true) :
    (fetchWeatherData env cache q).result = .fatal ∧
      (fetchWeatherData env cache q).cache = cache := by
  rw [fetch_miss_ok_setFails env cache q apiKey w hget hc hkey hp hset]
  exact ⟨rfl, rfl⟩

/-- Claim C2 witness at "london" against the SET-failing environment. -/
theorem c2_cache_write_failure_fatal_witness :
    (fetchWeatherData env2 [] "london").result = .fatal ∧
      (fetchWeatherData env2 [] "london").cache = [] :=
  c2_cache_write_failure_fatal env2 [] "london" "k" w0 rfl rfl rfl rfl rfl

/-- Claim C3: when `FetchBulkWeatherData` returns without error (and without
dying), `|found| + |notFound| = |queries|`, and every not-found entry is the
string `'<q>' not found` built from a query exactly as it appeared in the
input list. -/
theorem c3_bulk_partition (env : Env) (cache : Cache) (qs : List String)
    (hfat : (fetchBulkWeatherData env cache qs).fatal = false)
    (herr : (fetchBulkWeatherData env cache qs).error = none) :
    (fetchBulkWeatherData env cache qs).found.length +
        (fetchBulkWeatherData env cache qs).notFoundList.length = qs.length ∧
      ∀ m ∈ (fetchBulkWeatherData env cache qs).notFoundList,
        ∃ q ∈ qs, m = notFoundMsg q :=
  bulk_partition qs env cache hfat herr

/-- Claim C3 witness: one found plus one not-found out of two queries. -/
theorem c3_bulk_partition_witness :
    (fetchBulkWeatherData env3 [] ["london", "nowhere"]).found.length +
        (fetchBulkWeatherData env3 [] ["london", "nowhere"]).notFoundList.length = 2 ∧
      ∀ m ∈ (fetchBulkWeatherData env3 [] ["london", "nowhere"]).notFoundList,
        ∃ q ∈ ["london", "nowhere"], m = notFoundMsg q :=
  c3_bulk_partition env3 [] ["london", "nowhere"] (by decide) (by decide)

/-- Claim C4: a non-NotFound failure of any single lookup aborts
`FetchBulkWeatherData` with that error and empty (nil) result lists; a
NotFound failure is absorbed into the not-found list and processing
continues; and whenever the bulk call returns an error it returns no partial
lists and the error is never NotFound. -/
theorem c4_bulk_abort (env : Env) (cache : Cache) (q : String) (qs : List String) :
    (∀ e, (fetchWeatherData env cache q).result = .err e →
      e ≠ .noLocationFound →
      fetchBulkWeatherData env cache (q :: qs) =
        ⟨[], [], some e, false, (fetchWeatherData env cache q).cache,
          (fetchWeatherData env cache q).providerCalls,
          (fetchWeatherData env cache q).cacheOps⟩) ∧
    ((fetchWeatherData env cache q).result = .err .noLocationFound →
      (fetchBulkWeatherData env (fetchWeatherData env cache q).cache qs).fatal = false →
      (fetchBulkWeatherData env (fetchWeatherData env cache q).cache qs).error = none →
      fetchBulkWeatherData env cache (q :: qs) =
        ⟨(fetchBulkWeatherData env (fetchWeatherData env cache q).cache qs).found,
          notFoundMsg q ::
            (fetchBulkWeatherData env (fetchWeatherData env cache q).cache qs).notFoundList,
          none, false,
          (fetchBulkWeatherData env (fetchWeatherData env cache q).cache qs).cache,
          (fetchWeatherData env cache q).providerCalls ++
            (fetchBulkWeatherData env (fetchWeatherData env cache q).cache qs).providerCalls,
          (fetchWeatherData env cache q).cacheOps ++
            (fetchBulkWeatherData env (fetchWeatherData env cache q).cache qs).cacheOps⟩) ∧
    (∀ e, (fetchBulkWeatherData env cache (q :: qs)).error = some e →
      (fetchBulkWeatherData env cache (q :: qs)).found = [] ∧
      (fetchBulkWeatherData env cache (q :: qs)).notFoundList = [] ∧
      e ≠ .noLocationFound) := by
  refine ⟨?_, ?_, ?_⟩
  · intro e hres hne
    exact bulk_cons_abort env cache q qs e hres hne
  · intro hres hfat2 herr2
    rcases hb : fetchBulkWeatherData env (fetchWeatherData env cache q).cache qs with
      ⟨fnd, nf, er, ft, ca, cl, op⟩
    rw [hb] at hfat2 herr2
    dsimp only at hfat2 herr2
    rw [bulk_cons_notFound env cache q qs hres, hb]
    dsimp only
    rw [hfat2, herr2]
    rfl
  · intro e he
    exact bulk_error_inversion (q :: qs) env cache e he

/-- Claim C4 witness: a provider outage (non-400 status) on the first query
aborts the bulk call with the wrapped status error and nil lists. -/
theorem c4_bulk_abort_witness :
    fetchBulkWeatherData env4 [] ("london" :: ["paris"]) =
      ⟨[], [], some .badStatus, false, (fetchWeatherData env4 [] "london").cache,
        (fetchWeatherData env4 [] "london").providerCalls,
        (fetchWeatherData env4 [] "london").cacheOps⟩ :=
  (c4_bulk_abort env4 [] "london" ["paris"]).1 .badStatus (by decide) (by decide)

/-- Claim C5: the three banding functions are total; the nine temperature
bands cover all of ℚ, are pairwise disjoint, and `getTempColor` follows the
band table; the five wind bands partition `[0, ∞)` with the fallback color on
negative input; the five cloud bands partition `[0, 100]` with the fallback
color outside. -/
theorem c5_banding_totality :
    (∀ t : ℚ, ∃! i : Fin 9, tempBand i t) ∧
    (∀ (t : ℚ) (i : Fin 9), tempBand i t → getTempColor t = tempColor9 i) ∧
    (∀ w : ℚ, 0 ≤ w → ∃! i : Fin 5, windBand i w) ∧
    (∀ (w : ℚ) (i : Fin 5), windBand i w → getWindColor w = windColor5 i) ∧
    (∀ w : ℚ, w < 0 → getWindColor w = "#FFFFFF") ∧
    (∀ cl : ℤ, 0 ≤ cl → cl ≤ 100 → ∃! i : Fin 5, cloudBand i cl) ∧
    (∀ (cl : ℤ) (i : Fin 5), cloudBand i cl → getCloudColor cl = cloudColor5 i) ∧
    (∀ cl : ℤ, cl < 0 ∨ 100 < cl → getCloudColor cl = "#FFFFFF") :=
  ⟨tempBand_cover, getTempColor_of_band, windBand_cover, getWindColor_of_band,
    getWindColor_fallback, cloudBand_cover, getCloudColor_of_band,
    getCloudColor_fallback⟩

/-- Claim C5 witness at sample inputs of each kind. -/
theorem c5_banding_totality_witness :
    getTempColor 25 = tempColor9 5 ∧ getWindColor (-1) = "#FFFFFF" ∧
      getCloudColor 101 = "#FFFFFF" :=
  ⟨c5_banding_totality.2.1 25 5 ⟨by norm_num, by norm_num⟩,
    c5_banding_totality.2.2.2.2.1 (-1) (by norm_num),
    c5_banding_totality.2.2.2.2.2.2.2 101 (by norm_num)⟩

/-- Claim C6: a request whose API key is not in the key table is answered
401 by both handlers before any provider request or Redis operation is
made. -/
theorem c6_auth_short_circuit (env : Env) (cache : Cache) (apiKey query : String)
    (body : Option (List String))
    (hdb : env.db apiKey = .keyNotFound) :
    weatherDataHandler env cache (some (apiKey, query)) = ⟨401, cache, [], []⟩ ∧
      bulkWeatherDataHandler env cache (some apiKey) body = ⟨401, cache, [], []⟩ := by
  constructor
  · unfold weatherDataHandler apiKeyAuthorization
    dsimp only
    rw [hdb]
    rfl
  · unfold bulkWeatherDataHandler apiKeyAuthorization
    dsimp only
    rw [hdb]
    rfl

/-- Claim C6 witness against the key table that knows no key. -/
theorem c6_auth_short_circuit_witness :
    weatherDataHandler env5 [] (some ("badkey", "london")) = ⟨401, [], [], []⟩ ∧
      bulkWeatherDataHandler env5 [] (some "badkey") (some ["london"]) =
        ⟨401, [], [], []⟩ :=
  c6_auth_short_circuit env5 [] "badkey" "london" (some ["london"]) rfl

/-- Claim C7: with healthy Redis and the API key present, a refresh flushes
the whole cache exactly once, queries the provider exactly once per roster
entry (in roster order, regardless of per-location failures, which are
skipped), completes without error, and leaves every successfully resolved
roster location's record in the cache under its write key. -/
theorem c7_refresh_flush_invariant (env : Env) (apiKey : String) (cache : Cache)
    (hget : env.cacheGetFails = false) (hset : env.cacheSetFails = false)
    (hflush : env.flushFails = false) (hkey : env.apiKeyEnv = some apiKey) :
    (updateWeatherDataInTheRedisCache env cache).error = none ∧
    (updateWeatherDataInTheRedisCache env cache).fatal = false ∧
    (updateWeatherDataInTheRedisCache env cache).cacheOps.count CacheOp.flush = 1 ∧
    (updateWeatherDataInTheRedisCache env cache).providerCalls =
      country_list.map (fun l => urlFor apiKey (wkey l)) ∧
    (∀ l ∈ country_list, ∀ w, env.provider (urlFor apiKey (wkey l)) = .ok w →
      cacheGet (updateWeatherDataInTheRedisCache env cache).cache (wkey l) =
        some (formatWeatherData w)) := by
  have hfr : freshCheckAux (country_list.map fun l => (rkey l, wkey l)) = true :=
    fresh_country_list
  rcases hb : refreshLoop env [] country_list with ⟨ft, ca, cl, op⟩
  obtain ⟨i1, i2, i3, i4, i5⟩ :=
    refreshLoop_invariant env apiKey hget hset hkey country_list [] hfr
      (fun l _ => rfl)
  rw [hb] at i1 i2 i3 i5
  dsimp only at i1 i2 i3 i5
  unfold updateWeatherDataInTheRedisCache
  rw [hflush]
  simp only [Bool.false_eq_true, if_false, hb]
  refine ⟨trivial, i1, ?_, i2, ?_⟩
  · show (CacheOp.flush :: op).count CacheOp.flush = 1
    rw [List.count_cons_self, List.count_eq_zero.mpr i5]
  · intro l hl w hw
    exact i3 l hl w hw

/-- Claim C7 witness: the providerCalls trace and a sample cached roster
entry, with the always-succeeding provider. -/
theorem c7_refresh_flush_invariant_witness :
    (updateWeatherDataInTheRedisCache env1 []).error = none ∧
      (updateWeatherDataInTheRedisCache env1 []).fatal = false ∧
      (updateWeatherDataInTheRedisCache env1 []).cacheOps.count CacheOp.flush = 1 ∧
      (updateWeatherDataInTheRedisCache env1 []).providerCalls =
        country_list.map (fun l => urlFor "k" (wkey l)) ∧
      cacheGet (updateWeatherDataInTheRedisCache env1 []).cache (wkey "Chad") =
        some (formatWeatherData w0) :=
  have h := c7_refresh_flush_invariant env1 "k" [] rfl rfl rfl rfl
  ⟨h.1, h.2.1, h.2.2.1, h.2.2.2.1,
    h.2.2.2.2 "Chad" (by decide) w0 rfl⟩

/-- Claim C8 (counterexample): on a cache miss the provider is called with
the title-cased, URL-escaped query — for the raw query "new york" the call
uses "New%20York", not the escaped raw query "new%20york". -/
theorem c8_counterexample :
    (fetchWeatherData env1 [] "new york").providerCalls =
        [urlFor "k" (replaceSpaces (capitalizeFirstLetter "new york"))] ∧
      replaceSpaces (capitalizeFirstLetter "new york") ≠
        replaceSpaces "new york" := by decide

/-- Claim C8 (amended): on a cache miss (with the provider API key present),
`FetchWeatherData` calls the provider exactly once, with the
title-cased query, URL-escaped (spaces replaced by %20) — not with the raw
query. -/
theorem c8_provider_query_form (env : Env) (cache : Cache) (q apiKey : String)
    (hget : env.cacheGetFails = false)
    (hc : cacheGet cache (rkey q) = none)
    (hkey : env.apiKeyEnv = some apiKey) :
    (fetchWeatherData env cache q).providerCalls =
      [urlFor apiKey (replaceSpaces (capitalizeFirstLetter q))] := by
  rcases hp : env.provider (urlFor apiKey (wkey q)) with _ | _ | _ | _ | w
  case badRequest =>
    rw [fetch_miss_badRequest env cache q apiKey hget hc hkey hp]
    rfl
  case badStatus =>
    rw [fetch_miss_badStatus env cache q apiKey hget hc hkey hp]
    rfl
  case bodyTruncated =>
    rw [fetch_miss_truncated env cache q apiKey hget hc hkey hp]
    rfl
  case bodyMismatched =>
    rw [fetch_miss_mismatched env cache q apiKey hget hc hkey hp]
    rfl
  case ok =>
    rcases hset : env.cacheSetFails with _ | _
    · rw [fetch_miss_ok env cache q apiKey w hget hc hkey hp hset]
      rfl
    · rw [fetch_miss_ok_setFails env cache q apiKey w hget hc hkey hp hset]
      rfl

/-- Claim C8 witness at the raw query "new york". -/
theorem c8_provider_query_form_witness :
    (fetchWeatherData env1 [] "new york").providerCalls =
      [urlFor "k" (replaceSpaces (capitalizeFirstLetter "new york"))] :=
  c8_provider_query_form env1 [] "new york" "k" rfl rfl rfl

/-- Claim C9: a payload that fails to parse aborts the fetch with an error
and writes nothing to the cache (the only Redis operation is the read);
a syntactically truncated payload yields `ErrUnexpectedEndOfJSONInput`,
distinct from the generic unmarshal error of a structurally invalid
payload. -/
theorem c9_parse_error_atomicity (env : Env) (cache : Cache) (q apiKey : String)
    (hget : env.cacheGetFails = false)
    (hc : cacheGet cache (rkey q) = none)
    (hkey : env.apiKeyEnv = some apiKey) :
    (env.provider (urlFor apiKey (wkey q)) = .bodyTruncated →
      (fetchWeatherData env cache q).result = .err .unexpectedEndOfJSONInput ∧
      (fetchWeatherData env cache q).cache = cache ∧
      (fetchWeatherData env cache q).cacheOps = [.get (rkey q)]) ∧
    (env.provider (urlFor apiKey (wkey q)) = .bodyMismatched →
      (fetchWeatherData env cache q).result = .err .unmarshalJSON ∧
      (fetchWeatherData env cache q).cache = cache ∧
      (fetchWeatherData env cache q).cacheOps = [.get (rkey q)]) ∧
    SvcError.unexpectedEndOfJSONInput ≠ SvcError.unmarshalJSON := by
  refine ⟨fun hp => ?_, fun hp => ?_, by decide⟩
  · rw [fetch_miss_truncated env cache q apiKey hget hc hkey hp]
    exact ⟨rfl, rfl, rfl⟩
  · rw [fetch_miss_mismatched env cache q apiKey hget hc hkey hp]
    exact ⟨rfl, rfl, rfl⟩

/-- Claim C9 witness against the truncated-body and mismatched-body
providers. -/
theorem c9_parse_error_atomicity_witness :
    (fetchWeatherData env6 [] "london").result =
        .err .unexpectedEndOfJSONInput ∧
      (fetchWeatherData env7 [] "london").result = .err .unmarshalJSON :=
  ⟨((c9_parse_error_atomicity env6 [] "london" "k" rfl rfl rfl).1 rfl).1,
    ((c9_parse_error_atomicity env7 [] "london" "k" rfl rfl rfl).2.1 rfl).1⟩

/-- Claim C10: the title-casing normalizer is idempotent, so the double
normalization on the cache read path (`FetchWeatherData` plus the cache
helper) reads the same key as a single normalization. -/
theorem c10_normalization_idempotent (s : String) :
    capitalizeFirstLetter (capitalizeFirstLetter s) = capitalizeFirstLetter s :=
  capitalizeFirstLetter_idem s

end Obhavo
